import Mathlib

/-!
Shallow embedding of the HTTP fetch and request-shaping layer of
SuperFlux (src/src-tauri/src/lib.rs): the shared client manager
(get_or_init_client), the header policy resolver (get_headers_for_url),
the fetch executor (fetch_url), the generic request executor
(http_request) and the diagnostics probe (check_network).

External library behaviour (url::Url::parse, the reqwest transport, the
http crate header wire-format validation) is modelled as explicit
parameters: a parse function, a client-construction outcome, a send
oracle mapping the outgoing request to a transport outcome, and a pair
of validity predicates for header names and values. Each executor
returns its result together with the list of requests actually handed
to the transport, so that the absence of network activity is the
statement that this list is empty.
-/

namespace SuperFlux

/-- ASCII lowercase of a string, character by character. Matches the
Rust eq_ignore_ascii_case comparison and the lowercase canonicalisation
the http crate applies to header names. -/
def asciiLower (s : String) : String := String.mk (s.data.map Char.toLower)

/-- ASCII uppercase of a string, character by character. Models the
method.to_uppercase() call in http_request (method strings are ASCII). -/
def asciiUpper (s : String) : String := String.mk (s.data.map Char.toUpper)

/-- Case-insensitive ASCII string equality, as Rust eq_ignore_ascii_case. -/
def eqIgnoreAsciiCase (a b : String) : Bool := asciiLower a == asciiLower b

/-- Does the first character list start with the second one. -/
def listStartsWith : List Char → List Char → Bool
  | _, [] => true
  | [], _ :: _ => false
  | a :: as, b :: bs => a == b && listStartsWith as bs

/-- Does the pattern occur as a contiguous run inside the list. -/
def listContainsRun : List Char → List Char → Bool
  | [], pat => pat.isEmpty
  | a :: as, pat => listStartsWith (a :: as) pat || listContainsRun as pat

/-- Substring containment on strings, as Rust str::contains with a
string pattern (byte-substring search; identical on the ASCII hostnames
and patterns this layer uses). -/
def strContains (s pat : String) : Bool := listContainsRun s.data pat.data

/-- The honest feed-reader identity, constant RSS_USER_AGENT in lib.rs. -/
def RSS_USER_AGENT : String :=
  "SuperFlux/1.0 (RSS Reader; +https://github.com/user/superflux)"

/-- The desktop-browser identity, constant BROWSER_USER_AGENT in lib.rs. -/
def BROWSER_USER_AGENT : String :=
  "Mozilla/5.0 (Windows NT 10.0; Win64; x64) AppleWebKit/537.36 (KHTML, like Gecko) Chrome/120.0.0.0 Safari/537.36"

/-- A parsed absolute URL, reduced to what the fetch layer reads from
it: the outcome of url.host_str(), which is None for host-less URLs. -/
structure ParsedUrl where
  host : Option String
deriving Repr, DecidableEq

/-- The shared reqwest client, reduced to the configuration fixed by
the builder in get_or_init_client. -/
structure Client where
  redirectLimit : Nat
  timeoutSecs : Nat
  connectTimeoutSecs : Nat
deriving Repr, DecidableEq

/-- The client the builder constructs when it succeeds: 10 redirect
hops, 30 s total timeout, 15 s connect timeout. -/
def defaultClient : Client := ⟨10, 30, 15⟩

/-- A reqwest transport error, abstracted to the three predicates the
code probes (is_connect, is_timeout, is_request) plus its display text. -/
structure ReqError where
  is_connect : Bool
  is_timeout : Bool
  is_request : Bool
  msg : String
deriving Repr, DecidableEq

/-- A received HTTP response: numeric status, the reason phrase of its
status line (the http crate renders a status as code-space-reason),
response headers whose values may fail text decoding (None), and the
outcome of reading the body as text. -/
structure HttpResp where
  status : Nat
  reason : String
  headers : List (String × Option String)
  body : Except String String

/-- A request handed to the transport: canonical method, target URL
text, the headers set on it in application order, optional raw body. -/
structure SentRequest where
  method : String
  url : String
  headers : List (String × String)
  body : Option String
deriving Repr, DecidableEq

/-- Header name and value wire-format validation performed by the http
crate (HeaderName try_from and HeaderValue from_str), abstracted as
predicates since that code lives outside this repository. -/
structure Wire where
  nameValid : String → Bool
  valueValid : String → Bool

/-- Header policy resolver, from get_headers_for_url in lib.rs: reads
the hostname (empty string when absent), and selects a header list by
substring containment, reddit.com first, then youtube.com, else the
default. Header names appear in the lowercase canonical form the
HeaderMap stores. -/
def get_headers_for_url (url : ParsedUrl) : List (String × String) :=
  let host := url.host.getD ""
  if strContains host "reddit.com" then
    [("user-agent", BROWSER_USER_AGENT),
     ("accept", "text/html,application/xhtml+xml,application/xml;q=0.9,*/*;q=0.8"),
     ("accept-language", "en-US,en;q=0.9,fr;q=0.8")]
  else if strContains host "youtube.com" then
    [("user-agent", RSS_USER_AGENT),
     ("accept", "application/atom+xml, application/xml, text/xml, */*")]
  else
    [("user-agent", BROWSER_USER_AGENT),
     ("accept", "text/html,application/xhtml+xml,application/xml;q=0.9,*/*;q=0.8"),
     ("accept-language", "en-US,en;q=0.9,fr;q=0.8")]

/-- Spec-side reference policy of the aggregation-site rule (rule 1):
browser User-Agent, HTML-preferring Accept, Accept-Language. -/
def aggregationPolicy : List (String × String) :=
  [("user-agent", BROWSER_USER_AGENT),
   ("accept", "text/html,application/xhtml+xml,application/xml;q=0.9,*/*;q=0.8"),
   ("accept-language", "en-US,en;q=0.9,fr;q=0.8")]

/-- Spec-side reference policy of the video-platform rule (rule 2):
application User-Agent and an Atom/XML-preferring Accept. -/
def videoPolicy : List (String × String) :=
  [("user-agent", RSS_USER_AGENT),
   ("accept", "application/atom+xml, application/xml, text/xml, */*")]

/-- Spec-side default-rule policy: the same triple as the
aggregation-site rule. -/
def defaultRulePolicy : List (String × String) := aggregationPolicy

/-- A reference rule: hostname predicate plus emitted policy. -/
structure Rule where
  matchesHost : String → Bool
  policy : List (String × String)

/-- The ordered reference rule list from the spec, evaluated
first-match-wins: aggregation site before video platform. -/
def specRules : List Rule :=
  [⟨fun h => strContains h "reddit.com", aggregationPolicy⟩,
   ⟨fun h => strContains h "youtube.com", videoPolicy⟩]

/-- First-match-wins evaluation of an ordered rule list with a default. -/
def resolveRules : List Rule → List (String × String) → String → List (String × String)
  | [], dflt, _ => dflt
  | r :: rest, dflt, host =>
    if r.matchesHost host then r.policy else resolveRules rest dflt host

/-- Lookup of a header value by exact name in a policy list. -/
def findHeader (n : String) (hs : List (String × String)) : Option String :=
  (hs.find? (fun kv => kv.1 == n)).map (fun kv => kv.2)

example : strContains "www.reddit.com" "reddit.com" = true := by decide
example : strContains "example.org" "reddit.com" = false := by decide
example : get_headers_for_url ⟨some "www.youtube.com"⟩ = videoPolicy := by rfl
example : get_headers_for_url ⟨none⟩ = defaultRulePolicy := by rfl

/-- Outcome of one client construction attempt: success, or the error
text of the failure (for example a TLS backend initialisation failure).
On success the builder yields the fixed-configuration client; the error
path prepends the message the code formats. Models the builder call in
get_or_init_client. -/
def buildClient (outcome : Except String Unit) : Except String Client :=
  match outcome with
  | .error e => .error ("Failed to create HTTP client: " ++ e)
  | .ok _ => .ok defaultClient

/-- Shared client manager, from get_or_init_client in lib.rs, with the
OnceLock content made an explicit state: if the cell is filled, return
its client unchanged; otherwise attempt construction, and on success
fill the cell, while on failure return the error and leave the cell
empty. -/
def get_or_init_client (outcome : Except String Unit) (st : Option Client) :
    Except String Client × Option Client :=
  match st with
  | some c => (.ok c, some c)
  | none =>
    match buildClient outcome with
    | .error e => (.error e, none)
    | .ok c => (.ok c, some c)

/-- A sequence of calls to get_or_init_client, one construction outcome
per call, threading the OnceLock state; returns the per-call results
and the final state. -/
def runClientCalls : List (Except String Unit) → Option Client →
    List (Except String Client) × Option Client
  | [], st => ([], st)
  | o :: rest, st =>
    let (r, st2) := get_or_init_client o st
    let (rs, stFin) := runClientCalls rest st2
    (r :: rs, stFin)

/-- Transport-failure classification used by fetch_url: probe
is_connect, then is_timeout, then is_request, else a generic message. -/
def classifyTransport (e : ReqError) : String :=
  if e.is_connect then "Connection failed: " ++ e.msg
  else if e.is_timeout then "Timeout: " ++ e.msg
  else if e.is_request then "TLS/Request error: " ++ e.msg
  else "Request failed: " ++ e.msg

/-- Fetch executor, from fetch_url in lib.rs. Parameters model the
externals: parseUrl is url::Url::parse, clientRes the outcome of
get_or_init_client for this call, send the transport. Returns the
result paired with the list of requests handed to the transport. The
code parses first (failure returns an Invalid URL error without
touching client or network), resolves the header policy, obtains the
client, issues one GET, classifies a transport failure, rejects a
non-2xx status as an HTTP error, and otherwise reads the body as text. -/
def fetch_url (parseUrl : String → Except String ParsedUrl)
    (clientRes : Except String Client)
    (send : SentRequest → Except ReqError HttpResp)
    (target_url : String) : Except String String × List SentRequest :=
  match parseUrl target_url with
  | .error e => (.error ("Invalid URL: " ++ e), [])
  | .ok parsed =>
    let hdrs := get_headers_for_url parsed
    match clientRes with
    | .error ce => (.error ce, [])
    | .ok _ =>
      let req : SentRequest := ⟨"GET", target_url, hdrs, none⟩
      match send req with
      | .error e => (.error (classifyTransport e), [req])
      | .ok resp =>
        if 200 ≤ resp.status ∧ resp.status < 300 then
          match resp.body with
          | .error e => (.error ("Failed to read response body: " ++ e), [req])
          | .ok text => (.ok text, [req])
        else
          (.error ("HTTP " ++ toString resp.status), [req])

/-- Error text the http crate renders for an invalid header name,
wrapped as http_request formats it, naming the offending key. -/
def headerNameErr (k : String) : String :=
  "Invalid header name \x27" ++ k ++ "\x27: invalid HTTP header name"

/-- Error text the http crate renders for an invalid header value,
wrapped as http_request formats it, naming the offending key. -/
def headerValueErr (k : String) : String :=
  "Invalid header value for \x27" ++ k ++ "\x27: failed to parse header value"

/-- The caller-header loop of http_request: validate each name and
value in order, stopping at the first offender with an error naming its
key; on success emit the pairs in order, names in the lowercase
canonical form HeaderName stores, values verbatim. -/
def applyHeaders (w : Wire) : List (String × String) → Except String (List (String × String))
  | [] => .ok []
  | (k, v) :: rest =>
    if w.nameValid k = false then .error (headerNameErr k)
    else if w.valueValid v = false then .error (headerValueErr k)
    else
      match applyHeaders w rest with
      | .error e => .error e
      | .ok tl => .ok ((asciiLower k, v) :: tl)

/-- Structured result of the generic request executor: status code,
body text, and response headers decoded to text. -/
structure HttpResponse where
  status : Nat
  body : String
  headers : List (String × String)
deriving Repr, DecidableEq

/-- Generic request executor, from http_request in lib.rs. The client
is obtained first; the method is uppercased and matched against the
five supported verbs (anything else is rejected before any network
activity); caller headers are validated and applied; a User-Agent is
injected only when no caller key equals user-agent case-insensitively;
an optional raw body is set. reqwest defers URL parsing: a malformed
URL surfaces as a builder error from send, without any request being
handed to the transport, which the parseUrl match below models. A
non-2xx status is not an error here: the response is returned with its
status, headers (undecodable values becoming empty strings) and body. -/
def http_request (w : Wire) (parseUrl : String → Except String ParsedUrl)
    (clientRes : Except String Client)
    (send : SentRequest → Except ReqError HttpResp)
    (method url : String) (headers : List (String × String))
    (body : Option String) : Except String HttpResponse × List SentRequest :=
  match clientRes with
  | .error ce => (.error ce, [])
  | .ok _ =>
    let mUp := asciiUpper method
    if mUp = "GET" ∨ mUp = "POST" ∨ mUp = "PUT" ∨ mUp = "DELETE" ∨ mUp = "PATCH" then
      match applyHeaders w headers with
      | .error e => (.error e, [])
      | .ok applied =>
        let withUA :=
          if headers.any (fun kv => eqIgnoreAsciiCase kv.1 "user-agent") then applied
          else applied ++ [("user-agent", BROWSER_USER_AGENT)]
        let req : SentRequest := ⟨mUp, url, withUA, body⟩
        match parseUrl url with
        | .error pe => (.error ("Request failed: " ++ pe), [])
        | .ok _ =>
          match send req with
          | .error e => (.error ("Request failed: " ++ e.msg), [req])
          | .ok resp =>
            let respHeaders := resp.headers.map (fun kv => (kv.1, kv.2.getD ""))
            match resp.body with
            | .error e => (.error ("Failed to read response body: " ++ e), [req])
            | .ok b => (.ok ⟨resp.status, b, respHeaders⟩, [req])
    else
      (.error ("Unsupported HTTP method: " ++ mUp), [])

/-- The fixed well-known endpoint the diagnostics probe targets. -/
def CHECK_URL : String := "https://httpbin.org/get"

/-- Rendering of a status the way the http crate displays it in the
probe success message: numeric code, space, reason phrase. -/
def statusDisplay (r : HttpResp) : String := toString r.status ++ " " ++ r.reason

/-- Diagnostics probe, from check_network in lib.rs: one GET to the
fixed endpoint with the client default headers. Any received response
is a success whose message embeds the displayed status; a transport
failure is classified by probing is_connect, is_timeout, is_request in
order, with a generic network-error message otherwise. -/
def check_network (clientRes : Except String Client)
    (send : SentRequest → Except ReqError HttpResp) :
    Except String String × List SentRequest :=
  match clientRes with
  | .error ce => (.error ce, [])
  | .ok _ =>
    let req : SentRequest := ⟨"GET", CHECK_URL, [], none⟩
    match send req with
    | .ok resp =>
      (.ok ("OK: " ++ CHECK_URL ++ " → HTTP " ++ statusDisplay resp), [req])
    | .error e =>
      (if e.is_connect then .error ("Connection failed (DNS or firewall?): " ++ e.msg)
       else if e.is_timeout then .error ("Timeout: " ++ e.msg)
       else if e.is_request then .error ("TLS/Request error: " ++ e.msg)
       else .error ("Network error: " ++ e.msg), [req])

/-- A wire validator accepting every header name and value. -/
def trivWire : Wire := ⟨fun _ => true, fun _ => true⟩

/-- A plain 200 response used to instantiate theorems. -/
def resp200 : HttpResp :=
  ⟨200, "OK", [("content-type", some "text/plain")], .ok "hello"⟩

/-- A 404 response used to instantiate theorems. -/
def resp404 : HttpResp :=
  ⟨404, "Not Found", [("content-type", some "text/plain")], .ok "missing"⟩

/- Helper lemmas shared by the claim theorems. -/

/-- The five-verb test on an uppercased method string. -/
def supportedMethod (m : String) : Prop :=
  asciiUpper m = "GET" ∨ asciiUpper m = "POST" ∨ asciiUpper m = "PUT" ∨
    asciiUpper m = "DELETE" ∨ asciiUpper m = "PATCH"

theorem applyHeaders_ok_map (w : Wire) :
    ∀ (hs applied : List (String × String)), applyHeaders w hs = .ok applied →
      applied = hs.map (fun kv => (asciiLower kv.1, kv.2)) := by
  intro hs
  induction hs with
  | nil =>
    intro applied h
    simp only [applyHeaders, Except.ok.injEq] at h
    subst h
    rfl
  | cons head tail ih =>
    intro applied h
    obtain ⟨k, v⟩ := head
    rw [applyHeaders] at h
    by_cases h1 : w.nameValid k = false
    · rw [if_pos h1] at h; exact absurd h (by simp)
    · rw [if_neg h1] at h
      by_cases h2 : w.valueValid v = false
      · rw [if_pos h2] at h; exact absurd h (by simp)
      · rw [if_neg h2] at h
        cases htl : applyHeaders w tail with
        | error e => rw [htl] at h; exact absurd h (by simp)
        | ok tl =>
          rw [htl] at h
          simp only [Except.ok.injEq] at h
          subst h
          simp [ih tl htl]

theorem applyHeaders_error_first (w : Wire) :
    ∀ hs : List (String × String),
      (∃ kv ∈ hs, w.nameValid kv.1 = false ∨ w.valueValid kv.2 = false) →
      ∃ k v, (k, v) ∈ hs ∧ (w.nameValid k = false ∨ w.valueValid v = false) ∧
        (applyHeaders w hs = .error (headerNameErr k) ∨
          applyHeaders w hs = .error (headerValueErr k)) := by
  intro hs
  induction hs with
  | nil => intro h; simp at h
  | cons head tail ih =>
    intro h
    obtain ⟨k, v⟩ := head
    by_cases h1 : w.nameValid k = false
    · exact ⟨k, v, List.mem_cons_self _ _, Or.inl h1,
        Or.inl (by rw [applyHeaders, if_pos h1])⟩
    · by_cases h2 : w.valueValid v = false
      · exact ⟨k, v, List.mem_cons_self _ _, Or.inr h2,
          Or.inr (by rw [applyHeaders, if_neg h1, if_pos h2])⟩
      · have htail : ∃ kv ∈ tail, w.nameValid kv.1 = false ∨ w.valueValid kv.2 = false := by
          obtain ⟨kv, hkv, hbad⟩ := h
          rcases List.mem_cons.mp hkv with heq | hmem
          · subst heq
            rcases hbad with hb | hb
            · exact absurd hb h1
            · exact absurd hb h2
          · exact ⟨kv, hmem, hbad⟩
        obtain ⟨k2, v2, hmem, hbad, herr⟩ := ih htail
        refine ⟨k2, v2, List.mem_cons_of_mem _ hmem, hbad, ?_⟩
        rcases herr with he | he
        · exact Or.inl (by rw [applyHeaders, if_neg h1, if_neg h2, he])
        · exact Or.inr (by rw [applyHeaders, if_neg h1, if_neg h2, he])

theorem http_request_header_error (w : Wire)
    (parseUrl : String → Except String ParsedUrl) (c : Client)
    (send : SentRequest → Except ReqError HttpResp)
    (m u : String) (hs : List (String × String)) (b : Option String)
    (e : String) (hm : supportedMethod m) (hh : applyHeaders w hs = .error e) :
    http_request w parseUrl (.ok c) send m u hs b = (.error e, []) := by
  unfold supportedMethod at hm
  rw [http_request]
  simp only []
  rw [if_pos hm, hh]

theorem http_request_sent_shape (w : Wire)
    (parseUrl : String → Except String ParsedUrl) (parsed : ParsedUrl) (c : Client)
    (send : SentRequest → Except ReqError HttpResp)
    (m u : String) (hs : List (String × String)) (b : Option String)
    (applied : List (String × String))
    (hm : supportedMethod m) (hh : applyHeaders w hs = .ok applied)
    (hp : parseUrl u = .ok parsed) :
    (http_request w parseUrl (.ok c) send m u hs b).2
      = [⟨asciiUpper m, u,
          (if hs.any (fun kv => eqIgnoreAsciiCase kv.1 "user-agent") then applied
           else applied ++ [("user-agent", BROWSER_USER_AGENT)]), b⟩] := by
  unfold supportedMethod at hm
  rw [http_request]
  simp only []
  rw [if_pos hm, hh]
  simp only [hp]
  cases hsend : send ⟨asciiUpper m, u,
      (if hs.any (fun kv => eqIgnoreAsciiCase kv.1 "user-agent") then applied
       else applied ++ [("user-agent", BROWSER_USER_AGENT)]), b⟩ with
  | error e => simp [hsend]
  | ok resp =>
    cases hb : resp.body with
    | error e => simp [hsend, hb]
    | ok t => simp [hsend, hb]

/-- C1: the header policy resolver equals the reference rule list under
first-match-wins hostname-substring evaluation: a host containing
reddit.com gets the browser User-Agent, an Accept including text/html
and an Accept-Language; a host containing youtube.com gets the
application User-Agent and an Accept including atom+xml; any other host
gets the default-rule policy, which equals the aggregation-site triple. -/
theorem c1_policy_refines_rule_list :
    (∀ url : ParsedUrl,
      get_headers_for_url url
        = resolveRules specRules defaultRulePolicy (url.host.getD "")) ∧
    defaultRulePolicy = aggregationPolicy ∧
    findHeader "user-agent" aggregationPolicy = some BROWSER_USER_AGENT ∧
    (∃ a, findHeader "accept" aggregationPolicy = some a ∧
      strContains a "text/html" = true) ∧
    (findHeader "accept-language" aggregationPolicy).isSome = true ∧
    findHeader "user-agent" videoPolicy = some RSS_USER_AGENT ∧
    (∃ a, findHeader "accept" videoPolicy = some a ∧
      strContains a "atom+xml" = true) := by
  refine ⟨fun url => rfl, rfl, by decide,
    ⟨"text/html,application/xhtml+xml,application/xml;q=0.9,*/*;q=0.8",
      by decide, by decide⟩,
    by decide, by decide,
    ⟨"application/atom+xml, application/xml, text/xml, */*",
      by decide, by decide⟩⟩

/-- C3: a fetch_url input whose URL parse fails yields the Invalid URL
error and hands no request to the transport. -/
theorem c3_fetch_invalid_url_no_network
    (parseUrl : String → Except String ParsedUrl)
    (clientRes : Except String Client)
    (send : SentRequest → Except ReqError HttpResp)
    (u e : String) (h : parseUrl u = .error e) :
    fetch_url parseUrl clientRes send u = (.error ("Invalid URL: " ++ e), []) := by
  rw [fetch_url]
  simp only [h]

/-- Witness for C3 at the concrete input of the spec example. -/
theorem c3_witness :
    fetch_url (fun _ => .error "relative URL without a base")
      (.ok defaultClient) (fun _ => .error ⟨false, false, false, "unused"⟩)
      "not a url"
      = (.error "Invalid URL: relative URL without a base", []) :=
  c3_fetch_invalid_url_no_network _ _ _ "not a url" "relative URL without a base" rfl

/-- C9: the policy resolver always emits a User-Agent header, and a
successfully parsed URL without a hostname receives the default-rule
policy; the resolver is a total function. -/
theorem c9_policy_total_user_agent :
    (∀ url : ParsedUrl,
      (get_headers_for_url url).any (fun kv => kv.1 == "user-agent") = true) ∧
    (∀ url : ParsedUrl, url.host = none →
      get_headers_for_url url = defaultRulePolicy) := by
  constructor
  · intro url
    simp only [get_headers_for_url]
    split
    · decide
    · split
      · decide
      · decide
  · intro url h
    obtain ⟨host⟩ := url
    simp only at h
    subst h
    rfl

/-- Witness for C9 at a host-less URL and at an ordinary host. -/
theorem c9_witness :
    get_headers_for_url ⟨none⟩ = defaultRulePolicy ∧
    (get_headers_for_url ⟨some "gitlab.com"⟩).any (fun kv => kv.1 == "user-agent") = true :=
  ⟨c9_policy_total_user_agent.2 ⟨none⟩ rfl,
   c9_policy_total_user_agent.1 ⟨some "gitlab.com"⟩⟩

/-- C5 counterexample: a construction failure is not cached, so a call
after a failed one can succeed. On the outcome trace with one failing
and one succeeding construction attempt, the first call errors but the
second returns the client, refuting that a later call never succeeds
and that no re-initialization attempt is made. -/
theorem c5_counterexample :
    (runClientCalls [Except.error "tls backend failure", Except.ok ()] none).1
      = [Except.error "Failed to create HTTP client: tls backend failure",
         Except.ok defaultClient] := rfl

/-- C5 amended: a construction failure leaves the once-cell empty and
is returned to the caller, so each subsequent call re-attempts
construction: every call fails while construction keeps failing, a call
whose construction succeeds returns the client, and once the cell is
filled every call returns that same client without reconstruction. -/
theorem c5_amended_no_failure_caching :
    (∀ e : String, get_or_init_client (.error e) none
        = (.error ("Failed to create HTTP client: " ++ e), none)) ∧
    get_or_init_client (.ok ()) none = (.ok defaultClient, some defaultClient) ∧
    (∀ (o : Except String Unit) (c : Client),
      get_or_init_client o (some c) = (.ok c, some c)) ∧
    (∀ outcomes : List (Except String Unit),
      (∀ o ∈ outcomes, ∃ e, o = .error e) →
      (∀ r ∈ (runClientCalls outcomes none).1, ∃ m, r = .error m) ∧
      (runClientCalls outcomes none).2 = none) := by
  refine ⟨fun e => rfl, rfl, fun o c => rfl, ?_⟩
  intro outcomes
  induction outcomes with
  | nil =>
    intro _
    refine ⟨?_, rfl⟩
    intro r hr
    cases hr
  | cons o rest ih =>
    intro h
    obtain ⟨e, he⟩ := h o (List.mem_cons_self _ _)
    subst he
    have hrest := ih (fun o ho => h o (List.mem_cons_of_mem _ ho))
    constructor
    · intro r hr
      rw [runClientCalls] at hr
      simp only [get_or_init_client, buildClient] at hr
      rcases List.mem_cons.mp hr with heq | hmem
      · exact ⟨_, heq⟩
      · exact hrest.1 r hmem
    · rw [runClientCalls]
      simp only [get_or_init_client, buildClient]
      exact hrest.2

/-- Witness for the amended C5 at a concrete all-failing trace and at
concrete single calls. -/
theorem c5_amended_witness :
    (∀ r ∈ (runClientCalls [Except.error "a", Except.error "b"] none).1,
      ∃ m, r = Except.error m) ∧
    (runClientCalls [Except.error "a", Except.error "b"] none).2 = none ∧
    get_or_init_client (Except.error "a") none
      = (Except.error "Failed to create HTTP client: a", none) ∧
    get_or_init_client (Except.ok ()) (some defaultClient)
      = (Except.ok defaultClient, some defaultClient) := by
  have h := c5_amended_no_failure_caching
  have htrace := h.2.2.2 [Except.error "a", Except.error "b"] (by
    intro o ho
    simp only [List.mem_cons, List.not_mem_nil, or_false] at ho
    rcases ho with rfl | rfl
    · exact ⟨"a", rfl⟩
    · exact ⟨"b", rfl⟩)
  exact ⟨htrace.1, htrace.2, h.1 "a", h.2.2.1 (Except.ok ()) defaultClient⟩

/-- C2: for the same GET whose server answers a non-2xx status (any
status outside 200 to 299), fetch_url fails with the HTTP status error
carrying the numeric code, while http_request succeeds with a
structured result carrying that status, the decoded response headers
and the body. -/
theorem c2_non_2xx_asymmetry
    (resp : HttpResp) (u : String) (parsed : ParsedUrl) (w : Wire) (b : String)
    (parseUrl : String → Except String ParsedUrl)
    (hp : parseUrl u = .ok parsed)
    (hst : ¬ (200 ≤ resp.status ∧ resp.status < 300))
    (hb : resp.body = .ok b) :
    fetch_url parseUrl (.ok defaultClient) (fun _ => .ok resp) u
      = (.error ("HTTP " ++ toString resp.status),
         [⟨"GET", u, get_headers_for_url parsed, none⟩]) ∧
    http_request w parseUrl (.ok defaultClient) (fun _ => .ok resp) "GET" u [] none
      = (.ok ⟨resp.status, b, resp.headers.map (fun kv => (kv.1, kv.2.getD ""))⟩,
         [⟨"GET", u, [("user-agent", BROWSER_USER_AGENT)], none⟩]) := by
  constructor
  · rw [fetch_url]
    simp only [hp]
    rw [if_neg hst]
  · have hget : asciiUpper "GET" = "GET" := rfl
    rw [http_request]
    simp only [hget, hp, hb, applyHeaders, List.any_nil, List.nil_append]
    simp

/-- Witness for C2 at a concrete 404 response. -/
theorem c2_witness :
    fetch_url (fun _ => .ok ⟨some "example.com"⟩) (.ok defaultClient)
        (fun _ => .ok resp404) "https://example.com/missing"
      = (.error "HTTP 404",
         [⟨"GET", "https://example.com/missing",
           get_headers_for_url ⟨some "example.com"⟩, none⟩]) ∧
    http_request trivWire (fun _ => .ok ⟨some "example.com"⟩) (.ok defaultClient)
        (fun _ => .ok resp404) "GET" "https://example.com/missing" [] none
      = (.ok ⟨404, "missing", [("content-type", "text/plain")]⟩,
         [⟨"GET", "https://example.com/missing",
           [("user-agent", BROWSER_USER_AGENT)], none⟩]) :=
  c2_non_2xx_asymmetry resp404 "https://example.com/missing" ⟨some "example.com"⟩
    trivWire "missing" _ rfl (by decide) rfl

/-- C4: an http_request whose URL is malformed (its parse fails inside
the reqwest builder) returns an error and hands no request to the
transport, for any supported method, valid header map and body. -/
theorem c4_http_invalid_url_no_network
    (w : Wire) (parseUrl : String → Except String ParsedUrl) (c : Client)
    (send : SentRequest → Except ReqError HttpResp)
    (m u : String) (hs : List (String × String)) (b : Option String)
    (pe : String) (applied : List (String × String))
    (hm : supportedMethod m) (hh : applyHeaders w hs = .ok applied)
    (hp : parseUrl u = .error pe) :
    http_request w parseUrl (.ok c) send m u hs b
      = (.error ("Request failed: " ++ pe), []) := by
  unfold supportedMethod at hm
  rw [http_request]
  simp only []
  rw [if_pos hm, hh]
  simp only [hp]

/-- Witness for C4 at a concrete malformed-URL parse outcome. -/
theorem c4_witness :
    http_request trivWire (fun _ => .error "builder error") (.ok defaultClient)
        (fun _ => .ok resp200) "post" "nonsense url"
        [("x-api-key", "k1")] (some "payload")
      = (.error "Request failed: builder error", []) :=
  c4_http_invalid_url_no_network trivWire _ defaultClient _ "post" "nonsense url"
    [("x-api-key", "k1")] (some "payload") "builder error" [("x-api-key", "k1")]
    (by unfold supportedMethod; decide) rfl rfl

/-- C6: http_request depends on the method string only through its
uppercase form, so all casings of a supported verb behave identically;
a method whose uppercase form is none of the five verbs yields the
unsupported-method error with no request handed to the transport. -/
theorem c6_method_casing :
    (∀ (w : Wire) (parseUrl : String → Except String ParsedUrl)
      (clientRes : Except String Client)
      (send : SentRequest → Except ReqError HttpResp)
      (m1 m2 u : String) (hs : List (String × String)) (b : Option String),
      asciiUpper m1 = asciiUpper m2 →
      http_request w parseUrl clientRes send m1 u hs b
        = http_request w parseUrl clientRes send m2 u hs b) ∧
    (∀ (w : Wire) (parseUrl : String → Except String ParsedUrl) (c : Client)
      (send : SentRequest → Except ReqError HttpResp)
      (m u : String) (hs : List (String × String)) (b : Option String),
      ¬ supportedMethod m →
      http_request w parseUrl (.ok c) send m u hs b
        = (.error ("Unsupported HTTP method: " ++ asciiUpper m), [])) := by
  constructor
  · intro w parseUrl clientRes send m1 m2 u hs b h
    simp only [http_request.eq_def, h]
  · intro w parseUrl c send m u hs b hm
    unfold supportedMethod at hm
    rw [http_request]
    simp only []
    rw [if_neg hm]

/-- Witness for C6: lowercase and mixed-case get agree, and an
unsupported verb is rejected without any request being sent. -/
theorem c6_witness :
    http_request trivWire (fun _ => .ok ⟨some "example.com"⟩) (.ok defaultClient)
        (fun _ => .ok resp200) "get" "https://example.com" [] none
      = http_request trivWire (fun _ => .ok ⟨some "example.com"⟩) (.ok defaultClient)
        (fun _ => .ok resp200) "GeT" "https://example.com" [] none ∧
    http_request trivWire (fun _ => .ok ⟨some "example.com"⟩) (.ok defaultClient)
        (fun _ => .ok resp200) "TRACE" "https://example.com" [] none
      = (.error "Unsupported HTTP method: TRACE", []) :=
  ⟨c6_method_casing.1 trivWire _ _ _ "get" "GeT" "https://example.com" [] none rfl,
   c6_method_casing.2 trivWire _ defaultClient _ "TRACE" "https://example.com" [] none
     (by unfold supportedMethod; decide)⟩

/-- C7: when no caller header key equals user-agent under
case-insensitive comparison, the request handed to the transport
carries the appended default browser User-Agent; when the caller did
supply such a key in any casing, nothing is appended and the caller
pair itself (name canonicalised to lowercase, value verbatim) is among
the applied headers of the outgoing request. -/
theorem c7_user_agent_injection
    (w : Wire) (parseUrl : String → Except String ParsedUrl) (parsed : ParsedUrl)
    (c : Client) (send : SentRequest → Except ReqError HttpResp)
    (m u : String) (hs : List (String × String)) (b : Option String)
    (applied : List (String × String))
    (hm : supportedMethod m) (hh : applyHeaders w hs = .ok applied)
    (hp : parseUrl u = .ok parsed) :
    ((hs.any (fun kv => eqIgnoreAsciiCase kv.1 "user-agent")) = false →
      (http_request w parseUrl (.ok c) send m u hs b).2
        = [⟨asciiUpper m, u, applied ++ [("user-agent", BROWSER_USER_AGENT)], b⟩]) ∧
    ((hs.any (fun kv => eqIgnoreAsciiCase kv.1 "user-agent")) = true →
      (http_request w parseUrl (.ok c) send m u hs b).2
        = [⟨asciiUpper m, u, applied, b⟩]) ∧
    (∀ kv ∈ hs, (asciiLower kv.1, kv.2) ∈ applied) := by
  refine ⟨?_, ?_, ?_⟩
  · intro hua
    rw [http_request_sent_shape w parseUrl parsed c send m u hs b applied hm hh hp]
    simp [hua]
  · intro hua
    rw [http_request_sent_shape w parseUrl parsed c send m u hs b applied hm hh hp]
    simp [hua]
  · intro kv hkv
    rw [applyHeaders_ok_map w hs applied hh]
    exact List.mem_map_of_mem _ hkv

/-- Witness for C7: without a caller User-Agent the default one is on
the outgoing request; with a caller-supplied mixed-case User-Agent
nothing is appended and the caller value is used. -/
theorem c7_witness :
    (http_request trivWire (fun _ => .ok ⟨some "example.com"⟩) (.ok defaultClient)
        (fun _ => .ok resp200) "GET" "https://example.com"
        [("X-Token", "t1")] none).2
      = [⟨"GET", "https://example.com",
          [("x-token", "t1"), ("user-agent", BROWSER_USER_AGENT)], none⟩] ∧
    (http_request trivWire (fun _ => .ok ⟨some "example.com"⟩) (.ok defaultClient)
        (fun _ => .ok resp200) "GET" "https://example.com"
        [("User-Agent", "custom/2.0")] none).2
      = [⟨"GET", "https://example.com", [("user-agent", "custom/2.0")], none⟩] :=
  ⟨(c7_user_agent_injection trivWire _ ⟨some "example.com"⟩ defaultClient _
      "GET" "https://example.com" [("X-Token", "t1")] none [("x-token", "t1")]
      (by unfold supportedMethod; decide) rfl rfl).1 (by decide),
   ((c7_user_agent_injection trivWire _ ⟨some "example.com"⟩ defaultClient _
      "GET" "https://example.com" [("User-Agent", "custom/2.0")] none
      [("user-agent", "custom/2.0")]
      (by unfold supportedMethod; decide) rfl rfl).2).1 (by decide)⟩

/-- C8: a caller header whose name or value fails wire-format
validation makes http_request fail with an error naming the offending
key, with no request handed to the transport; when every header is
valid the applied list is exactly the caller pairs in order, names in
lowercase canonical form and values verbatim. -/
theorem c8_header_validation :
    (∀ (w : Wire) (hs : List (String × String)),
      (∃ kv ∈ hs, w.nameValid kv.1 = false ∨ w.valueValid kv.2 = false) →
      ∃ k v, (k, v) ∈ hs ∧ (w.nameValid k = false ∨ w.valueValid v = false) ∧
        ∃ msg, (msg = headerNameErr k ∨ msg = headerValueErr k) ∧
          ∀ (parseUrl : String → Except String ParsedUrl) (c : Client)
            (send : SentRequest → Except ReqError HttpResp)
            (m u : String) (b : Option String), supportedMethod m →
            http_request w parseUrl (.ok c) send m u hs b = (.error msg, [])) ∧
    (∀ (w : Wire) (hs applied : List (String × String)),
      applyHeaders w hs = .ok applied →
      applied = hs.map (fun kv => (asciiLower kv.1, kv.2))) := by
  constructor
  · intro w hs h
    obtain ⟨k, v, hmem, hbad, herr⟩ := applyHeaders_error_first w hs h
    rcases herr with he | he
    · exact ⟨k, v, hmem, hbad, headerNameErr k, Or.inl rfl,
        fun parseUrl c send m u b hm =>
          http_request_header_error w parseUrl c send m u hs b _ hm he⟩
    · exact ⟨k, v, hmem, hbad, headerValueErr k, Or.inr rfl,
        fun parseUrl c send m u b hm =>
          http_request_header_error w parseUrl c send m u hs b _ hm he⟩
  · exact applyHeaders_ok_map

/-- A wire validator rejecting header names that contain a space. -/
def spaceWire : Wire :=
  ⟨fun k => !(k.data.any (fun ch => ch == ' ')), fun _ => true⟩

/-- Witness for C8 at a concrete invalid header name and a concrete
valid header list. -/
theorem c8_witness :
    (∃ k v, (k, v) ∈ [("bad name", "v")] ∧
      (spaceWire.nameValid k = false ∨ spaceWire.valueValid v = false) ∧
      ∃ msg, (msg = headerNameErr k ∨ msg = headerValueErr k) ∧
        http_request spaceWire (fun _ => .ok ⟨some "example.com"⟩) (.ok defaultClient)
          (fun _ => .ok resp200) "GET" "https://example.com"
          [("bad name", "v")] none
          = (.error msg, [])) ∧
    ([("x-ok", "v1")] : List (String × String))
      = ([("x-ok", "v1")] : List (String × String)).map
          (fun kv => (asciiLower kv.1, kv.2)) := by
  constructor
  · obtain ⟨k, v, hmem, hbad, msg, hmsg, happ⟩ :=
      c8_header_validation.1 spaceWire [("bad name", "v")]
        ⟨("bad name", "v"), by simp, Or.inl (by decide)⟩
    exact ⟨k, v, hmem, hbad, msg, hmsg,
      happ (fun _ => .ok ⟨some "example.com"⟩) defaultClient (fun _ => .ok resp200)
        "GET" "https://example.com" none (by unfold supportedMethod; decide)⟩
  · exact c8_header_validation.2 spaceWire [("x-ok", "v1")] [("x-ok", "v1")] rfl

/-- C10: the diagnostics probe succeeds on every received response,
whatever its status code, embedding the displayed status in the
message; it errors only on a transport failure, classified by probing
connect, then timeout, then request framing, with a generic network
error otherwise. -/
theorem c10_check_network_classification :
    (∀ (c : Client) (send : SentRequest → Except ReqError HttpResp) (resp : HttpResp),
      send ⟨"GET", CHECK_URL, [], none⟩ = .ok resp →
      check_network (.ok c) send
        = (.ok ("OK: " ++ CHECK_URL ++ " → HTTP " ++ statusDisplay resp),
           [⟨"GET", CHECK_URL, [], none⟩])) ∧
    (∀ (c : Client) (send : SentRequest → Except ReqError HttpResp) (e : ReqError),
      send ⟨"GET", CHECK_URL, [], none⟩ = .error e →
      check_network (.ok c) send
        = (.error (if e.is_connect then "Connection failed (DNS or firewall?): " ++ e.msg
            else if e.is_timeout then "Timeout: " ++ e.msg
            else if e.is_request then "TLS/Request error: " ++ e.msg
            else "Network error: " ++ e.msg),
           [⟨"GET", CHECK_URL, [], none⟩])) := by
  constructor
  · intro c send resp h
    rw [check_network]
    simp only [h]
  · intro c send e h
    obtain ⟨hc, ht, hr, msg⟩ := e
    rw [check_network]
    simp only [h]
    cases hc <;> cases ht <;> cases hr <;> rfl

/-- A 500 response used to instantiate the diagnostics theorem. -/
def resp500 : HttpResp := ⟨500, "Internal Server Error", [], .ok ""⟩

/-- Witness for C10 at a concrete 500 response and a concrete timeout
failure. -/
theorem c10_witness :
    check_network (.ok defaultClient) (fun _ => .ok resp500)
      = (.ok "OK: https://httpbin.org/get → HTTP 500 Internal Server Error",
         [⟨"GET", CHECK_URL, [], none⟩]) ∧
    check_network (.ok defaultClient) (fun _ => .error ⟨false, true, false, "deadline"⟩)
      = (.error "Timeout: deadline", [⟨"GET", CHECK_URL, [], none⟩]) :=
  ⟨c10_check_network_classification.1 defaultClient _ resp500 rfl,
   c10_check_network_classification.2 defaultClient _ ⟨false, true, false, "deadline"⟩ rfl⟩

end SuperFlux
